import Mathlib

/-!
Shallow embedding of the AutoTest frontend-testing engine (TypeScript) and
proofs about its specification claims.

The embedding translates, function by function:
* `src/types.ts`            — the shared data model;
* `src/reporter/reporter.ts`— `Reporter.compile`, `buildSummary`,
  `buildFixInstructions`, `suggestFix`;
* `src/tester/navigator.ts` — `NavigationTester.discoverAndTestPages`,
  `normalizeUrl`, `extractContext`;
* `src/tester/formTester.ts`— `getTestValue` and the per-field branch of
  `FormTester.testForms`, plus the full `testForms` driver;
* `src/tester/clickTester.ts`— `ClickTester.testButtons`;
* `src/tester/visualChecker.ts` — `VisualChecker.checkOverlaps`.

Browser effects (puppeteer) are modelled by explicit oracles: records of
functions giving the driver's answer to each call, and, where a claim is
about effects, an explicit trace of emitted browser commands.  JavaScript
strings are modelled as Lean `String`s (lists of characters); JS string
truthiness (`""` is falsy) is made explicit at each use site.
-/

namespace AutoTest


/-- JS `String.prototype.includes`, on character lists. -/
def containsSub (s pat : List Char) : Bool :=
  match s with
  | [] => pat.isEmpty
  | c :: t => pat.isPrefixOf (c :: t) || containsSub t pat

/-- JS `s.includes(pat)` for Lean strings. -/
def strIncludes (s pat : String) : Bool :=
  containsSub s.data pat.data

/-- JS `String.prototype.toLowerCase`, modelled characterwise (all strings the
program lowercases are compared against ASCII keywords). -/
def jsToLower (s : String) : String :=
  String.mk (s.data.map Char.toLower)

/-- JS truthiness of an optional string: `undefined`/`null` and `""` are falsy. -/
def optTruthy : Option String → Bool
  | none => false
  | some s => !(s == "")

/-- JS `a || b` on strings: `a` unless `a` is empty. -/
def strOr (a b : String) : String :=
  if a == "" then b else a

/-- The `status` field of `TestResult` (src/types.ts): `"pass" | "fail" | "warning"`. -/
inductive Status where
  | pass
  | fail
  | warning
deriving DecidableEq, Repr

/-- Structure `ConsoleError` from src/types.ts (the optional `url`/`line` fields are
carried as options; they play no role in the tested logic). -/
structure ConsoleError where
  type : String
  text : String
  url : Option String := none
deriving DecidableEq, Repr

/-- Structure `TestResult` from src/types.ts. -/
structure TestResult where
  page : String
  test : String
  status : Status
  message : String
  screenshot : Option String := none
  details : Option String := none
deriving DecidableEq, Repr

/-- Structure `TestReport` from src/types.ts. -/
structure TestReport where
  url : String
  timestamp : String
  totalTests : Nat
  passed : Nat
  failed : Nat
  warnings : Nat
  results : List TestResult
  summary : String
  fixInstructions : String
deriving Repr

/-- Function `Reporter.suggestFix` (src/reporter/reporter.ts): ordered substring rules
over the lowercased test id and message. -/
def suggestFix (result : TestResult) : String :=
  let t := jsToLower result.test
  let msg := jsToLower result.message
  if strIncludes t "console-error" || strIncludes t "page-error" then
    "Check the browser console errors above. These are JavaScript runtime errors in your code. Look at the error message and stack trace to find the source file and line."
  else if strIncludes t "network-error" then
    "API or resource requests are failing. Check that your API endpoints exist, the server is running, and URLs are correct. Check CORS settings if it's a cross-origin request."
  else if strIncludes t "form" && strIncludes t "fill" then
    "Form fields could not be interacted with. Ensure input fields have proper 'name' or 'id' attributes and are not hidden or overlapped by other elements."
  else if strIncludes t "form" && strIncludes t "submit" then
    "Form submission caused errors. Check your form submission handler, ensure the API endpoint exists, and verify error handling in the submit function."
  else if strIncludes t "click" && strIncludes t "button" then
    "A button click caused errors. Check the onClick handler for this button, verify any state changes it triggers, and ensure referenced variables/functions exist."
  else if strIncludes t "overflow" then
    "Content is wider than the viewport causing horizontal scroll. Check for fixed-width elements, missing overflow:hidden, or elements with absolute positioning outside the viewport."
  else if strIncludes t "broken-images" then
    "Some images are not loading. Verify image file paths, ensure files exist in the correct directory, and check that the image URLs are correct."
  else if strIncludes t "has-content" then
    "The page appears blank or empty. Check if the root component is rendering, verify there are no JavaScript errors preventing render, and ensure data fetching is working."
  else if strIncludes msg "error text" then
    "The page is displaying an error message to the user. This could be a React error boundary, a 404 page, or an unhandled error. Check the component rendering logic."
  else
    "Review the error details above and fix the underlying code issue."

/-- One `- **test** (page): message` line of the failures section, with the
optional fenced details block. -/
def failureLine (r : TestResult) : String :=
  "- **" ++ r.test ++ "** (" ++ r.page ++ "): " ++ r.message ++ "\n" ++
    (if optTruthy r.details then "  ```\n  " ++ r.details.getD "" ++ "\n  ```\n" else "")

/-- One warning line of the warnings section. -/
def warningLine (r : TestResult) : String :=
  "- **" ++ r.test ++ "** (" ++ r.page ++ "): " ++ r.message ++ "\n"

/-- The rendered failures section of `Reporter.buildSummary` (the part the
`if (failed > 0)` block appends, including its trailing blank line). -/
def failuresSection (results : List TestResult) : String :=
  "### ❌ Failures\n" ++
    String.join ((results.filter (fun r => r.status == Status.fail)).map failureLine) ++ "\n"

/-- The rendered warnings section of `Reporter.buildSummary`. -/
def warningsSection (results : List TestResult) : String :=
  "### ⚠️ Warnings\n" ++
    String.join ((results.filter (fun r => r.status == Status.warning)).map warningLine) ++ "\n"

/-- The header of the summary: title line plus counts line. -/
def summaryHeader (url : String) (passed failed warnings : Nat) : String :=
  "## AutoTest Report for " ++ url ++ "\n\n" ++
    "**Results:** " ++ toString passed ++ " passed, " ++ toString failed ++
    " failed, " ++ toString warnings ++ " warnings\n\n"

/-- The all-passed sentence. -/
def allPassedLine : String :=
  "✅ All tests passed! The frontend appears to be working correctly.\n"

/-- Function `Reporter.buildSummary` (src/reporter/reporter.ts). -/
def buildSummary (url : String) (results : List TestResult)
    (passed failed warnings : Nat) : String :=
  let base := summaryHeader url passed failed warnings
  if failed == 0 && warnings == 0 then
    base ++ allPassedLine
  else
    base ++ (if failed > 0 then failuresSection results else "") ++
      (if warnings > 0 then warningsSection results else "")

/-- One issue block of `Reporter.buildFixInstructions`. -/
def fixBlock (failure : TestResult) : String :=
  "### Issue: " ++ failure.test ++ "\n" ++
    "- **Page:** " ++ failure.page ++ "\n" ++
    "- **Problem:** " ++ failure.message ++ "\n" ++
    (if optTruthy failure.details then
      "- **Details:**\n```\n" ++ failure.details.getD "" ++ "\n```\n"
     else "") ++
    "- **Suggested fix:** " ++ suggestFix failure ++ "\n\n"

/-- Function `Reporter.buildFixInstructions` (src/reporter/reporter.ts). -/
def buildFixInstructions (results : List TestResult) : String :=
  let failures := results.filter (fun r => r.status == Status.fail)
  if failures.length == 0 then
    "No fixes needed. All tests passed."
  else
    "## Fix Instructions\n\n" ++
      "The following issues were found by testing the actual frontend in a browser:\n\n" ++
      String.join (failures.map fixBlock)

/-- Function `Reporter.compile` (src/reporter/reporter.ts).  The timestamp
(`new Date().toISOString()` in the source) is passed in explicitly. -/
def compile (timestamp url : String) (results : List TestResult) : TestReport :=
  let passed := (results.filter (fun r => r.status == Status.pass)).length
  let failed := (results.filter (fun r => r.status == Status.fail)).length
  let warnings := (results.filter (fun r => r.status == Status.warning)).length
  { url := url
    timestamp := timestamp
    totalTests := results.length
    passed := passed
    failed := failed
    warnings := warnings
    results := results
    summary := buildSummary url results passed failed warnings
    fixInstructions := buildFixInstructions results }

/-! ## Form Test Runner (src/tester/formTester.ts) -/

/-- Structure `FieldInfo` from src/types.ts. -/
structure FieldInfo where
  type : String
  name : String
  id : String
  placeholder : String
  required : Bool
  label : String
deriving DecidableEq, Repr

/-- Structure `FormInfo` from src/types.ts (`id?: string` becomes an option). -/
structure FormInfo where
  action : String
  method : String
  fields : List FieldInfo
  submitButton : Option String
  id : Option String := none
deriving DecidableEq, Repr

/-- The `TEST_DATA` record of canonical test values (src/tester/formTester.ts). -/
structure TestData where
  email : String
  password : String
  text : String
  name : String
  tel : String
  phone : String
  number : String
  url : String
  search : String
  date : String
  color : String
deriving Repr

/-- The `TEST_DATA` constant. -/
def TEST_DATA : TestData :=
  { email := "testuser@example.com"
    password := "TestPass123!"
    text := "Test input value"
    name := "John Doe"
    tel := "1234567890"
    phone := "1234567890"
    number := "42"
    url := "https://example.com"
    search := "test search query"
    date := "2024-01-15"
    color := "#ff0000" }

/-- Dynamic access `TEST_DATA[key]` on the record. -/
def TestData.byKey (d : TestData) (key : String) : Option String :=
  match key with
  | "email" => some d.email
  | "password" => some d.password
  | "text" => some d.text
  | "name" => some d.name
  | "tel" => some d.tel
  | "phone" => some d.phone
  | "number" => some d.number
  | "url" => some d.url
  | "search" => some d.search
  | "date" => some d.date
  | "color" => some d.color
  | _ => none

/-- The lowercased `name label placeholder` identifier built by `getTestValue`. -/
def fieldIdentifier (field : FieldInfo) : String :=
  jsToLower (field.name ++ " " ++ field.label ++ " " ++ field.placeholder)

/-- Function `getTestValue` (src/tester/formTester.ts): keyword tests on the identifier
in priority order, then the type-keyed table (falsy `||` fallback), then the
generic text value. -/
def getTestValue (field : FieldInfo) : String :=
  let identifier := fieldIdentifier field
  if strIncludes identifier "email" then TEST_DATA.email
  else if strIncludes identifier "password" || strIncludes identifier "pass" then
    TEST_DATA.password
  else if strIncludes identifier "name" || strIncludes identifier "first"
      || strIncludes identifier "last" then TEST_DATA.name
  else if strIncludes identifier "phone" || strIncludes identifier "tel" then
    TEST_DATA.tel
  else if strIncludes identifier "url" || strIncludes identifier "website" then
    TEST_DATA.url
  else if strIncludes identifier "search" then TEST_DATA.search
  else if strIncludes identifier "date" then TEST_DATA.date
  else
    match TEST_DATA.byKey field.type with
    | some v => if v == "" then TEST_DATA.text else v
    | none => TEST_DATA.text

/-- The ordered keyword-rule table named by the spec: keyword groups in
priority order, each mapped to its canonical value. -/
def keywordRules : List (List String × String) :=
  [(["email"], TEST_DATA.email),
   (["password", "pass"], TEST_DATA.password),
   (["name", "first", "last"], TEST_DATA.name),
   (["phone", "tel"], TEST_DATA.tel),
   (["url", "website"], TEST_DATA.url),
   (["search"], TEST_DATA.search),
   (["date"], TEST_DATA.date)]

/-- Matcher written from the spec's words (§4.2): test the identifier against
the ordered keyword rules, first match wins; otherwise the type-keyed table,
defaulting to the generic text value. -/
def specMatcher (field : FieldInfo) : String :=
  match keywordRules.find? (fun rule =>
      rule.1.any (fun kw => strIncludes (fieldIdentifier field) kw)) with
  | some rule => rule.2
  | none => (TEST_DATA.byKey field.type).getD TEST_DATA.text

/-- The per-field test action chosen by the fill phase of
`FormTester.testForms`. -/
inductive FieldAction where
  /-- hidden/submit fields are skipped outright. -/
  | skipped
  /-- no `id` and no `name`: only an error string is recorded. -/
  | noSelector
  /-- `browser.selectOption(selector, "")` for select/select-one fields. -/
  | selectAction (selector : String)
  /-- `browser.click(selector)` for checkbox/radio fields. -/
  | clickAction (selector : String)
  /-- `browser.fillField(selector, value)` for all other fields. -/
  | fillAction (selector : String) (value : String)
deriving DecidableEq, Repr

/-- The selector computed for a field (`#id`, else `[name="..."]`, else null). -/
def fieldSelector (field : FieldInfo) : Option String :=
  if field.id != "" then some ("#" ++ field.id)
  else if field.name != "" then some ("[name=\"" ++ field.name ++ "\"]")
  else none

/-- The branch of the field loop of `FormTester.testForms` deciding which
action exercises a field. -/
def fieldAction (field : FieldInfo) : FieldAction :=
  if field.type == "hidden" || field.type == "submit" then .skipped
  else
    match fieldSelector field with
    | none => .noSelector
    | some sel =>
      if field.type == "select" || field.type == "select-one" then .selectAction sel
      else if field.type == "checkbox" || field.type == "radio" then .clickAction sel
      else .fillAction sel (getTestValue field)

/-- Result of `BrowserEngine.click` (src/browser/engine.ts). -/
structure ClickResult where
  success : Bool
  error : Option String := none
  newUrl : Option String := none
deriving DecidableEq, Repr

/-- One browser call issued by a test runner; used to trace effects. -/
inductive BrowserCmd where
  | goto (url : String)
  | fill (selector value : String)
  | click (selector : String)
  | selectOpt (selector : String)
  | getErrors
  | screenshot
  | currentUrl
deriving DecidableEq, Repr

/-- Driver oracle for one form of `FormTester.testForms`: the browser's answer
to each call the runner makes while processing that form. -/
structure FormBrowserResp where
  fillOk : String → String → Bool
  clickRes : String → ClickResult
  selectOk : String → Bool
  errorsBeforeSubmit : List ConsoleError
  errorsAfterSubmit : List ConsoleError
  screenshotRef : String
  urlAfterEmptySubmit : String

/-- One iteration of the field loop of `FormTester.testForms`: the per-field
error strings recorded and the browser commands issued. -/
def fieldStep (resp : FormBrowserResp) (field : FieldInfo) :
    List String × List BrowserCmd :=
  match fieldAction field with
  | .skipped => ([], [])
  | .noSelector =>
      (["Could not find selector for field: "
          ++ strOr field.label (strOr field.name "unknown")], [])
  | .selectAction sel =>
      if resp.selectOk sel then ([], [.selectOpt sel])
      else (["Could not interact with select: " ++ sel], [.selectOpt sel])
  | .clickAction sel =>
      if (resp.clickRes sel).success then ([], [.click sel])
      else (["Could not click " ++ field.type ++ ": " ++ sel], [.click sel])
  | .fillAction sel value =>
      if resp.fillOk sel value then ([], [.fill sel value])
      else (["Could not fill field: " ++ sel ++ " ("
          ++ strOr field.label field.name ++ ")"], [.fill sel value])

/-- The submit selector of Test 3 of `FormTester.testForms`. -/
def submitSelector (form : FormInfo) (i : Nat) : String :=
  if optTruthy form.id then
    "#" ++ form.id.getD "" ++ " button[type=\"submit\"], #" ++ form.id.getD ""
      ++ " input[type=\"submit\"]"
  else
    "form:nth-of-type(" ++ toString (i + 1) ++ ") button[type=\"submit\"], form:nth-of-type("
      ++ toString (i + 1) ++ ") input[type=\"submit\"]"

/-- The submit selector of Test 4 (empty-submit validation); note its
positional fallback omits the `input[type="submit"]` alternative. -/
def validationSelector (form : FormInfo) (i : Nat) : String :=
  if optTruthy form.id then
    "#" ++ form.id.getD "" ++ " button[type=\"submit\"], #" ++ form.id.getD ""
      ++ " input[type=\"submit\"]"
  else
    "form:nth-of-type(" ++ toString (i + 1) ++ ") button[type=\"submit\"]"

/-- The body of the `for` loop over forms in `FormTester.testForms`:
outcomes pushed and browser commands issued for form number `i`. -/
def processForm (resp : FormBrowserResp) (pageUrl : String) (i : Nat)
    (form : FormInfo) : List TestResult × List BrowserCmd :=
  let formId := strOr (form.id.getD "") ("form-" ++ toString (i + 1))
  let submitWarn : List TestResult :=
    if !optTruthy form.submitButton && form.fields.length > 0 then
      [{ page := pageUrl, test := formId ++ "-submit-button", status := .warning,
         message := "Form \"" ++ formId ++ "\" has no visible submit button" }]
    else []
  if form.fields.length == 0 then
    let fieldsWarn : TestResult :=
      { page := pageUrl, test := formId ++ "-fields", status := .warning,
        message := "Form \"" ++ formId ++ "\" has no input fields" }
    (submitWarn ++ [fieldsWarn], [])
  else
    let fieldOut := form.fields.map (fieldStep resp)
    let fieldErrors := (fieldOut.map Prod.fst).flatten
    let fieldCmds := (fieldOut.map Prod.snd).flatten
    let fillOutcome : TestResult :=
      if fieldErrors.isEmpty then
        { page := pageUrl, test := formId ++ "-fill", status := .pass,
          message := "All fields in \"" ++ formId ++ "\" were filled successfully" }
      else
        { page := pageUrl, test := formId ++ "-fill", status := .fail,
          message := "Some fields in \"" ++ formId ++ "\" could not be filled",
          details := some (String.intercalate "\n" fieldErrors) }
    let submitPart : List TestResult × List BrowserCmd :=
      if optTruthy form.submitButton then
        let sel := submitSelector form i
        let cr := resp.clickRes sel
        if !cr.success then
          ([{ page := pageUrl, test := formId ++ "-submit", status := .fail,
              message := "Could not click submit button for \"" ++ formId ++ "\"",
              details := cr.error }],
           [.getErrors, .click sel])
        else
          let newErrors := resp.errorsAfterSubmit.drop resp.errorsBeforeSubmit.length
          if newErrors.length > 0 then
            ([{ page := pageUrl, test := formId ++ "-submit", status := .fail,
                message := "Form \"" ++ formId ++ "\" submission caused "
                  ++ toString newErrors.length ++ " error(s)",
                screenshot := some resp.screenshotRef,
                details := some (String.intercalate "\n" (newErrors.map (·.text))) }],
             [.getErrors, .click sel, .getErrors, .screenshot])
          else
            ([{ page := pageUrl, test := formId ++ "-submit", status := .pass,
                message := "Form \"" ++ formId ++ "\" submitted without errors",
                screenshot := some resp.screenshotRef }],
             [.getErrors, .click sel, .getErrors, .screenshot])
      else ([], [])
    let requiredFields := form.fields.filter (·.required)
    let validationPart : List TestResult × List BrowserCmd :=
      if requiredFields.length > 0 && optTruthy form.submitButton then
        let sel := validationSelector form i
        let outcome : TestResult :=
          if resp.urlAfterEmptySubmit == pageUrl
              || resp.urlAfterEmptySubmit == pageUrl ++ "/" then
            { page := pageUrl, test := formId ++ "-validation", status := .pass,
              message := "Form \"" ++ formId
                ++ "\" correctly blocks empty submission (has required fields)" }
          else
            { page := pageUrl, test := formId ++ "-validation", status := .warning,
              message := "Form \"" ++ formId
                ++ "\" has required fields but submitted empty (validation may be missing)" }
        ([outcome], [.goto pageUrl, .click sel, .currentUrl])
      else ([], [.goto pageUrl])
    (submitWarn ++ fillOutcome :: submitPart.1 ++ validationPart.1,
     .goto pageUrl :: fieldCmds ++ submitPart.2 ++ validationPart.2)

/-- Function `FormTester.testForms` (src/tester/formTester.ts); the oracle gives the
driver's responses for each form index, and the second component is the trace
of browser calls. -/
def testForms (o : Nat → FormBrowserResp) (pageUrl : String)
    (forms : List FormInfo) : List TestResult × List BrowserCmd :=
  if forms.length == 0 then
    ([{ page := pageUrl, test := "form-presence", status := .pass,
        message := "No forms found on page (nothing to test)" }], [])
  else
    let parts := forms.enum.map (fun p => processForm (o p.1) pageUrl p.1 p.2)
    ((parts.map Prod.fst).flatten, (parts.map Prod.snd).flatten)

/-! ## Click Test Runner (src/tester/clickTester.ts) -/

/-- Structure `ButtonInfo` from src/types.ts. -/
structure ButtonInfo where
  text : String
  type : String
  id : String
  disabled : Bool
  selector : String
deriving DecidableEq, Repr

/-- Driver oracle for one button of `ClickTester.testButtons`: the console
errors present before the click, the click result, the console errors present
after the click, and the screenshot reference. -/
structure ClickBrowserResp where
  consoleErrorsBefore : List ConsoleError
  clickRes : ClickResult
  consoleErrorsAfter : List ConsoleError
  screenshotRef : String

/-- The loop body of `ClickTester.testButtons` for one testable button. -/
def testButton (pageUrl : String) (button : ButtonInfo)
    (resp : ClickBrowserResp) : TestResult :=
  let errorsBefore := resp.consoleErrorsBefore.length
  if !resp.clickRes.success then
    { page := pageUrl, test := "click-button-\"" ++ button.text ++ "\"",
      status := .fail,
      message := "Button \"" ++ button.text ++ "\" could not be clicked",
      details := resp.clickRes.error }
  else
    let newErrors := resp.consoleErrorsAfter.drop errorsBefore
    if newErrors.length > 0 then
      { page := pageUrl, test := "click-button-\"" ++ button.text ++ "\"",
        status := .fail,
        message := "Clicking \"" ++ button.text ++ "\" caused "
          ++ toString newErrors.length ++ " error(s)",
        screenshot := some resp.screenshotRef,
        details := some (String.intercalate "\n" (newErrors.map (·.text))) }
    else
      { page := pageUrl, test := "click-button-\"" ++ button.text ++ "\"",
        status := .pass,
        message := "Button \"" ++ button.text ++ "\" clicked successfully"
          ++ (match resp.clickRes.newUrl with
              | some u => " (navigated to " ++ u ++ ")"
              | none => "") }

/-- The testable-button filter of `ClickTester.testButtons`. -/
def testableButton (b : ButtonInfo) : Bool :=
  b.type != "submit" && !b.disabled && b.text.length > 0

/-- Function `ClickTester.testButtons` (src/tester/clickTester.ts). -/
def testButtons (o : ButtonInfo → ClickBrowserResp) (pageUrl : String)
    (buttons : List ButtonInfo) : List TestResult :=
  let testableButtons := buttons.filter testableButton
  if testableButtons.length == 0 then []
  else testableButtons.map (fun b => testButton pageUrl b (o b))

/-- A concrete button used to witness `testButton_error_delta`. -/
def sampleButton : ButtonInfo :=
  { text := "Save", type := "button", id := "", disabled := false,
    selector := "#save" }

/-- A concrete driver response: 2 console errors before the click, 5 after. -/
def sampleClickResp : ClickBrowserResp where
  consoleErrorsBefore :=
    [{ type := "console-error", text := "e1" },
     { type := "console-error", text := "e2" }]
  clickRes := { success := true }
  consoleErrorsAfter :=
    [{ type := "console-error", text := "e1" },
     { type := "console-error", text := "e2" },
     { type := "console-error", text := "e3" },
     { type := "console-error", text := "e4" },
     { type := "console-error", text := "e5" }]
  screenshotRef := "shot"

/-- The oracle answering every button with `sampleClickResp`. -/
def sampleClickOracle : ButtonInfo → ClickBrowserResp := fun _ => sampleClickResp

/-! ## URL normalization (src/tester/navigator.ts `normalizeUrl`)

`normalizeUrl` delegates parsing to the platform's WHATWG `URL` constructor.
The constructor is modelled here on the fragment of its behaviour the code
relies on: an `http://`/`https://` URL is split into origin (scheme + host)
and pathname (leading `/`, empty path segments preserved, query and fragment
excluded, an absent path yielding `/`); any other string fails to parse. -/

/-- Characters ending the host portion of a URL. -/
def isHostDelim (c : Char) : Bool :=
  c == '/' || c == '?' || c == '#'

/-- Split a post-scheme character list into host and remainder. -/
def splitHost : List Char → List Char × List Char
  | [] => ([], [])
  | c :: cs =>
    if isHostDelim c then ([], c :: cs)
    else
      let p := splitHost cs
      (c :: p.1, p.2)

/-- Path characters up to (excluding) a query or fragment delimiter. -/
def takePath : List Char → List Char
  | [] => []
  | c :: cs => if c == '?' || c == '#' then [] else c :: takePath cs

/-- The pathname computed from the post-host remainder: `/` plus the
query-free, fragment-free path text, or `/` when no path is present. -/
def pathOf : List Char → List Char
  | '/' :: cs => '/' :: takePath cs
  | _ => ['/']

/-- Parse host and pathname after a recognised scheme prefix. -/
def parseTail (scheme rest : List Char) : Option (List Char × List Char) :=
  let hp := splitHost rest
  if hp.1.isEmpty then none
  else some (scheme ++ hp.1, pathOf hp.2)

/-- Model of `new URL(s)` restricted to what `normalizeUrl` reads: `some
(origin, pathname)` on success, `none` when construction would throw. -/
def parseUrlChars (s : List Char) : Option (List Char × List Char) :=
  if "http://".data.isPrefixOf s then parseTail "http://".data (s.drop 7)
  else if "https://".data.isPrefixOf s then parseTail "https://".data (s.drop 8)
  else none

/-- JS `.replace` with the regex `/\/$/` and empty replacement: remove one
trailing slash, if any. -/
def stripTrailingSlash (p : List Char) : List Char :=
  match p.getLast? with
  | some '/' => p.dropLast
  | _ => p

/-- Function `NavigationTester.normalizeUrl` (src/tester/navigator.ts): origin plus
pathname with one trailing slash removed; non-parseable URLs verbatim. -/
def normalizeUrl (url : String) : String :=
  match parseUrlChars url.data with
  | some op => String.mk (op.1 ++ stripTrailingSlash op.2)
  | none => url

/-- The inputs on which one normalization already reaches a fixed point:
non-parseable strings, and parseable ones whose stripped pathname does not
still end in `/` (i.e. whose pathname does not end in a double slash). -/
def normIdemGuard (url : String) : Bool :=
  match parseUrlChars url.data with
  | none => true
  | some op => !((stripTrailingSlash op.2).getLast? == some '/')

/-! ## Frontier/Crawler (src/tester/navigator.ts `discoverAndTestPages`) -/

/-- Structure `LinkInfo` from src/types.ts. -/
structure LinkInfo where
  text : String
  href : String
  isInternal : Bool
deriving DecidableEq, Repr

/-- Structure `PageInfo` from src/types.ts. -/
structure PageInfo where
  url : String
  title : String
  links : List LinkInfo
  forms : List FormInfo
  buttons : List ButtonInfo
  errors : List ConsoleError
  screenshot : String
deriving DecidableEq, Repr

/-- Driver oracle for the crawler: whether navigation to a URL succeeds, and
the page snapshot and body text observed there. -/
structure CrawlOracle where
  goto : String → Bool
  pageInfo : String → PageInfo
  pageText : String → String

/-- JS whitespace characters trimmed by `String.prototype.trim` (the kinds
occurring in the modelled strings). -/
def isWhitespaceChar (c : Char) : Bool :=
  c == ' ' || c == '\t' || c == '\n' || c == '\r'

/-- JS `String.prototype.trim`. -/
def jsTrim (s : String) : String :=
  String.mk (((s.data.dropWhile isWhitespaceChar).reverse.dropWhile
    isWhitespaceChar).reverse)

/-- JS `String.prototype.indexOf` on character lists (`none` for `-1`). -/
def indexOfSub (s pat : List Char) : Option Nat :=
  match s with
  | [] => if pat.isEmpty then some 0 else none
  | c :: t =>
    if pat.isPrefixOf (c :: t) then some 0
    else (indexOfSub t pat).map (· + 1)

/-- Function `NavigationTester.extractContext` (src/tester/navigator.ts): a ±50
character window around the first occurrence of the keyword. -/
def extractContext (text keyword : String) : String :=
  match indexOfSub (jsToLower text).data keyword.data with
  | none => ""
  | some idx =>
    let start := idx - 50
    let stop := min text.data.length (idx + keyword.data.length + 50)
    "..." ++ String.mk ((text.data.drop start).take (stop - start)) ++ "..."

/-- The fixed ordered list of error-indicator phrases scanned on every page. -/
def errorIndicators : List String :=
  ["cannot read properties", "is not defined", "unexpected token",
   "module not found", "404", "500 internal server error",
   "something went wrong", "error boundary", "unhandled runtime error"]

/-- The `page-load` fail outcome emitted when navigation fails. -/
def pageLoadFailResult (url : String) : TestResult :=
  { page := url, test := "page-load", status := .fail,
    message := "Page failed to load: " ++ url }

/-- The outcomes pushed for one successfully loaded page by the crawl loop:
console/network error classification, content check, and the first-match
error-indicator scan. -/
def pageResults (url : String) (info : PageInfo) (bodyText : String) :
    List TestResult :=
  let consolePart :=
    if info.errors.length > 0 then
      let criticalErrors := info.errors.filter
        (fun e => e.type == "page-error" || e.type == "console-error")
      let networkErrors := info.errors.filter (fun e => e.type == "network-error")
      (if criticalErrors.length > 0 then
        [{ page := url, test := "console-errors", status := .fail,
           message := "Page has " ++ toString criticalErrors.length
             ++ " console error(s)",
           details := some (String.intercalate "\n" (criticalErrors.map (·.text))) }]
       else []) ++
      (if networkErrors.length > 0 then
        [{ page := url, test := "network-errors", status := .warning,
           message := toString networkErrors.length ++ " failed network request(s)",
           details := some (String.intercalate "\n" (networkErrors.map (·.text))) }]
       else [])
    else []
  let contentPart :=
    if bodyText == "" || (jsTrim bodyText).data.length < 10 then
      [{ page := url, test := "has-content", status := .fail,
         message := "Page appears empty or has very little content" }]
    else
      [{ page := url, test := "page-load", status := .pass,
         message := "Page loaded successfully: \"" ++ info.title ++ "\"",
         screenshot := some info.screenshot }]
  let errorTextPart :=
    match errorIndicators.find? (fun ind => strIncludes (jsToLower bodyText) ind) with
    | some ind =>
      [{ page := url, test := "error-text-check", status := .fail,
         message := "Page contains error text: \"" ++ ind ++ "\"",
         details := some (extractContext bodyText ind) }]
    | none => []
  consolePart ++ contentPart ++ errorTextPart

/-- Constant `MAX_PAGES` (src/tester/navigator.ts). -/
def MAX_PAGES : Nat := 10

/-- The crawl loop of `NavigationTester.discoverAndTestPages`.  `visited` is
the visited set in insertion order and `processed` instruments the run: one
entry per navigation attempted, as (normalized URL, loaded?). -/
def crawlLoop (o : CrawlOracle) (visited toVisit : List String)
    (results : List TestResult) (pages : List PageInfo)
    (processed : List (String × Bool)) :
    List TestResult × List PageInfo × List (String × Bool) :=
  match toVisit with
  | [] => (results, pages, processed)
  | url :: rest =>
    if _hcap : visited.length < MAX_PAGES then
      let normalizedUrl := normalizeUrl url
      if visited.contains normalizedUrl then
        crawlLoop o visited rest results pages processed
      else
        let visited' := visited ++ [normalizedUrl]
        if o.goto url then
          let info := o.pageInfo url
          let bodyText := o.pageText url
          let newLinks := (info.links.filter
            (fun l => l.isInternal && !(visited'.contains (normalizeUrl l.href)))).map
            (·.href)
          crawlLoop o visited' (rest ++ newLinks)
            (results ++ pageResults url info bodyText) (pages ++ [info])
            (processed ++ [(normalizedUrl, true)])
        else
          crawlLoop o visited' rest (results ++ [pageLoadFailResult url]) pages
            (processed ++ [(normalizedUrl, false)])
    else (results, pages, processed)
termination_by (MAX_PAGES - visited.length, toVisit.length)
decreasing_by
  · apply Prod.Lex.right
    simp
  · apply Prod.Lex.left
    simp only [List.length_append, List.length_cons, List.length_nil]
    omega
  · apply Prod.Lex.left
    simp only [List.length_append, List.length_cons, List.length_nil]
    omega

/-- Function `NavigationTester.discoverAndTestPages` (src/tester/navigator.ts). -/
def discoverAndTestPages (o : CrawlOracle) (baseUrl : String) :
    List TestResult × List PageInfo × List (String × Bool) :=
  crawlLoop o [] [baseUrl] [] [] []

/-- An oracle on which every navigation fails. -/
def failOracle : CrawlOracle where
  goto := fun _ => false
  pageInfo := fun u =>
    { url := u, title := "", links := [], forms := [], buttons := [],
      errors := [], screenshot := "" }
  pageText := fun _ => ""

/-! ## Visual Auditor overlap check (src/tester/visualChecker.ts `checkOverlaps`) -/

/-- The fields of a `DOMRect` read by the overlap check; `right`/`bottom` are
derived as in the DOM (`right = left + width`, `bottom = top + height`). -/
structure DomRect where
  left : Int
  top : Int
  width : Int
  height : Int
deriving DecidableEq, Repr

/-- Accessor `DOMRect.right`. -/
def DomRect.right (r : DomRect) : Int := r.left + r.width

/-- Accessor `DOMRect.bottom`. -/
def DomRect.bottom (r : DomRect) : Int := r.top + r.height

/-- An interactive element as seen by the in-page overlap scan. -/
structure DomElem where
  tagName : String
  id : String
  rect : DomRect
deriving DecidableEq, Repr

/-- The label `tagName + (id ? "#id" : "")` as rendered into an overlap entry. -/
def elemLabel (e : DomElem) : String :=
  e.tagName ++ (if e.id != "" then "#" ++ e.id else "")

/-- One inner-loop iteration of `checkOverlaps`: `none` when a box has zero
width or height or the boxes do not intersect, otherwise the reported entry. -/
def overlapPair (e1 e2 : DomElem) : Option String :=
  let r1 := e1.rect
  let r2 := e2.rect
  if r1.width = 0 ∨ r1.height = 0 ∨ r2.width = 0 ∨ r2.height = 0 then none
  else if r1.left < r2.right ∧ r1.right > r2.left
      ∧ r1.top < r2.bottom ∧ r1.bottom > r2.top then
    some (elemLabel e1 ++ " overlaps with " ++ elemLabel e2)
  else none

/-- The inner `j` loop: entries for `e` against every later element. -/
def overlapScanFrom (e : DomElem) (rest : List DomElem) : List String :=
  rest.filterMap (overlapPair e)

/-- The outer `i` loop of `checkOverlaps`: after each outer iteration the
loop breaks once more than 5 entries have been reported. -/
def overlapScan : List DomElem → List String → List String
  | [], acc => acc
  | e :: rest, acc =>
    let acc' := acc ++ overlapScanFrom e rest
    if acc'.length > 5 then acc' else overlapScan rest acc'

/-- Function `VisualChecker.checkOverlaps` (src/tester/visualChecker.ts). -/
def checkOverlaps (els : List DomElem) : List String :=
  overlapScan els []

/-- Non-zero-area test on an element's bounding box. -/
def elemNonZero (e : DomElem) : Bool :=
  !(e.rect.width == 0) && !(e.rect.height == 0)

/-- Seven identical unit buttons: every pair overlaps. -/
def sevenButtons : List DomElem :=
  List.replicate 7
    { tagName := "BUTTON", id := "",
      rect := { left := 0, top := 0, width := 10, height := 10 } }

/-- Three zero-height anchors. -/
def zeroAreaLinks : List DomElem :=
  List.replicate 3
    { tagName := "A", id := "",
      rect := { left := 0, top := 0, width := 120, height := 0 } }

/-! ## Theorems -/

/-- Every outcome has exactly one of the three statuses, so the three filters
partition the list. -/
lemma status_filter_partition (results : List TestResult) :
    (results.filter (fun r => r.status == Status.pass)).length
      + (results.filter (fun r => r.status == Status.fail)).length
      + (results.filter (fun r => r.status == Status.warning)).length
      = results.length := by
  induction results with
  | nil => rfl
  | cons r t ih =>
    cases h : r.status <;> simp [List.filter_cons, h] <;> omega

/-- C1: for every list of outcomes, `Reporter.compile` produces a report with
`passed + failed + warnings = totalTests` and `totalTests = length results`. -/
theorem compile_totals (timestamp url : String) (results : List TestResult) :
    (compile timestamp url results).passed + (compile timestamp url results).failed
        + (compile timestamp url results).warnings
      = (compile timestamp url results).totalTests
    ∧ (compile timestamp url results).totalTests = results.length := by
  refine ⟨?_, rfl⟩
  simpa [compile] using status_filter_partition results

/-- C6 counterexample: an outcome list with one failure and zero warnings is in
the claim's "otherwise" branch, yet the compiled summary contains no warnings
section at all — the code renders a section only when its count is positive. -/
theorem summary_warnings_section_cex :
    ((compile "2024-01-01T00:00:00.000Z" "http://localhost:3000"
        [{ page := "http://localhost:3000", test := "page-load", status := Status.fail,
           message := "Page failed to load: http://localhost:3000" }]).failed = 1
      ∧ (compile "2024-01-01T00:00:00.000Z" "http://localhost:3000"
        [{ page := "http://localhost:3000", test := "page-load", status := Status.fail,
           message := "Page failed to load: http://localhost:3000" }]).warnings = 0)
    ∧ strIncludes (compile "2024-01-01T00:00:00.000Z" "http://localhost:3000"
        [{ page := "http://localhost:3000", test := "page-load", status := Status.fail,
           message := "Page failed to load: http://localhost:3000" }]).summary
        "### ⚠️ Warnings" = false := by
  decide

/-- The `buildSummary` branch structure, with the count arguments free. -/
lemma buildSummary_eq (url : String) (results : List TestResult)
    (passed failed warnings : Nat) :
    buildSummary url results passed failed warnings
      = if failed = 0 ∧ warnings = 0 then
          summaryHeader url passed failed warnings ++ allPassedLine
        else
          summaryHeader url passed failed warnings
            ++ (if 0 < failed then failuresSection results else "")
            ++ (if 0 < warnings then warningsSection results else "") := by
  unfold buildSummary
  rcases Nat.eq_zero_or_pos failed with hf | hf
  · rcases Nat.eq_zero_or_pos warnings with hw | hw
    · subst hf; subst hw; simp
    · subst hf; simp [hw, hw.ne']
  · rcases Nat.eq_zero_or_pos warnings with hw | hw
    · subst hw; simp [hf, hf.ne']
    · simp [hf, hw, hf.ne', hw.ne']

set_option maxRecDepth 40000 in
/-- C6 (amended): if `failed = 0` and `warnings = 0` the summary is the header
followed by the single success sentence and nothing else; otherwise it is the
header followed by a failures section when `failed > 0` and then a warnings
section when `warnings > 0`, in that order.  Additionally, the spec scenario:
eight outcomes with zero failures and zero warnings yield the exact all-passed
sentence and no failure/warning section headers. -/
theorem compile_summary_sections :
    (∀ (timestamp url : String) (results : List TestResult),
      (compile timestamp url results).summary
        = if (compile timestamp url results).failed = 0
              ∧ (compile timestamp url results).warnings = 0 then
            summaryHeader url (compile timestamp url results).passed
                (compile timestamp url results).failed
                (compile timestamp url results).warnings
              ++ allPassedLine
          else
            summaryHeader url (compile timestamp url results).passed
                (compile timestamp url results).failed
                (compile timestamp url results).warnings
              ++ (if 0 < (compile timestamp url results).failed then
                    failuresSection results else "")
              ++ (if 0 < (compile timestamp url results).warnings then
                    warningsSection results else ""))
    ∧ ((compile "t" "http://localhost:3000"
          (List.replicate 8
            { page := "http://localhost:3000", test := "page-load", status := Status.pass,
              message := "ok" })).summary
        = summaryHeader "http://localhost:3000" 8 0 0 ++ allPassedLine
      ∧ strIncludes (compile "t" "http://localhost:3000"
          (List.replicate 8
            { page := "http://localhost:3000", test := "page-load", status := Status.pass,
              message := "ok" })).summary "### ❌ Failures" = false
      ∧ strIncludes (compile "t" "http://localhost:3000"
          (List.replicate 8
            { page := "http://localhost:3000", test := "page-load", status := Status.pass,
              message := "ok" })).summary "### ⚠️ Warnings" = false) := by
  constructor
  · intro timestamp url results
    simp only [compile]
    exact buildSummary_eq url results _ _ _
  · refine ⟨by decide, by decide, by decide⟩

/-- Every value in the `TEST_DATA` table is non-empty, so the JS falsy `||`
fallback in `getTestValue` never fires on a found key. -/
lemma byKey_ne_empty (key v : String) (h : TEST_DATA.byKey key = some v) : v ≠ "" := by
  unfold TestData.byKey at h
  split at h <;> simp_all [TEST_DATA] <;> subst h <;> decide

/-- C5: `getTestValue` coincides with the spec's ordered keyword-rule matcher,
and on the scenario field (name `"email"`, empty label, placeholder
`"Enter email"`) it returns the canonical email string. -/
theorem getTestValue_matches_spec :
    (∀ field : FieldInfo, getTestValue field = specMatcher field)
    ∧ getTestValue
        { type := "text", name := "email", id := "", placeholder := "Enter email",
          required := false, label := "" } = "testuser@example.com" := by
  constructor
  · intro field
    unfold getTestValue specMatcher keywordRules
    simp only [List.find?, List.any_cons, List.any_nil, Bool.or_false, Bool.or_assoc]
    cases h1 : strIncludes (fieldIdentifier field) "email"
    · cases h2 : (strIncludes (fieldIdentifier field) "password"
          || strIncludes (fieldIdentifier field) "pass")
      · cases h3 : (strIncludes (fieldIdentifier field) "name"
            || (strIncludes (fieldIdentifier field) "first"
              || strIncludes (fieldIdentifier field) "last"))
        · cases h4 : (strIncludes (fieldIdentifier field) "phone"
              || strIncludes (fieldIdentifier field) "tel")
          · cases h5 : (strIncludes (fieldIdentifier field) "url"
                || strIncludes (fieldIdentifier field) "website")
            · cases h6 : strIncludes (fieldIdentifier field) "search"
              · cases h7 : strIncludes (fieldIdentifier field) "date"
                · rcases hb : TEST_DATA.byKey field.type with _ | v
                  · simp [hb]
                  · have hv := byKey_ne_empty field.type v hb
                    simp [hb, hv]
                · simp
              · simp
            · simp
          · simp
        · simp
      · simp
    · simp
  · decide

/-- C3 counterexample: a plain text field with empty `id` and empty `name` is
neither hidden nor submit, yet the fill phase gives it no test action at all —
only an error string is recorded. -/
theorem fieldAction_no_selector_cex :
    ("text" : String) ≠ "hidden" ∧ ("text" : String) ≠ "submit"
    ∧ fieldAction
        { type := "text", name := "", id := "", placeholder := "",
          required := false, label := "" } = FieldAction.noSelector := by
  decide

/-- C3 (amended): every non-hidden, non-submit field that has a non-empty `id`
or `name` (hence a selector) is exercised by exactly one deterministic action:
selection for select/select-one, click for checkbox/radio, and fill with the
matched test value otherwise. -/
theorem fieldAction_amended (field : FieldInfo)
    (hh : field.type ≠ "hidden") (hs : field.type ≠ "submit")
    (hsel : field.id ≠ "" ∨ field.name ≠ "") :
    ∃ sel, fieldSelector field = some sel ∧
      fieldAction field =
        (if field.type = "select" ∨ field.type = "select-one" then
          FieldAction.selectAction sel
        else if field.type = "checkbox" ∨ field.type = "radio" then
          FieldAction.clickAction sel
        else FieldAction.fillAction sel (getTestValue field)) := by
  by_cases hid : field.id = ""
  · have hname : field.name ≠ "" := by
      rcases hsel with h | h
      · exact absurd hid h
      · exact h
    refine ⟨"[name=\"" ++ field.name ++ "\"]", ?_, ?_⟩
    · simp [fieldSelector, hid, hname]
    · simp [fieldAction, fieldSelector, hid, hname, hh, hs]
  · refine ⟨"#" ++ field.id, ?_, ?_⟩
    · simp [fieldSelector, hid]
    · simp [fieldAction, fieldSelector, hid, hh, hs]

/-- C10: calling `testForms` with an empty form list yields exactly one
outcome — a pass with test id `form-presence` and the no-forms message — and
issues no browser command (no navigation or interaction). -/
theorem testForms_empty (o : Nat → FormBrowserResp) (pageUrl : String) :
    testForms o pageUrl []
      = ([{ page := pageUrl, test := "form-presence", status := Status.pass,
            message := "No forms found on page (nothing to test)",
            screenshot := none, details := none }], []) := by
  rfl

/-- Witness for `fieldAction_amended` at a concrete checkbox field: the one
action chosen for it is the click on its id selector. -/
theorem fieldAction_amended_witness :
    fieldAction
        { type := "checkbox", name := "agree", id := "agree1", placeholder := "",
          required := false, label := "Agree" }
      = FieldAction.clickAction "#agree1" := by
  obtain ⟨sel, hsel, hact⟩ := fieldAction_amended
    { type := "checkbox", name := "agree", id := "agree1", placeholder := "",
      required := false, label := "Agree" } (by decide) (by decide) (Or.inl (by decide))
  have h0 : fieldSelector
      { type := "checkbox", name := "agree", id := "agree1", placeholder := "",
        required := false, label := "Agree" } = some "#agree1" := by decide
  rw [h0] at hsel
  have hs : sel = "#agree1" := (Option.some.inj hsel).symm
  subst hs
  rw [hact]
  decide

/-- C7: for a testable button whose click succeeds, an increase in the
console-error count yields a `fail` outcome whose details are exactly the
newly appeared error texts joined as lines, and no increase yields a `pass`;
the outcome produced for the button appears in the runner's output. -/
theorem testButton_error_delta (o : ButtonInfo → ClickBrowserResp)
    (pageUrl : String) (buttons : List ButtonInfo) (b : ButtonInfo)
    (hmem : b ∈ buttons) (hb : testableButton b = true)
    (hclick : (o b).clickRes.success = true) :
    testButton pageUrl b (o b) ∈ testButtons o pageUrl buttons
    ∧ ((o b).consoleErrorsAfter.length > (o b).consoleErrorsBefore.length →
        testButton pageUrl b (o b)
          = { page := pageUrl, test := "click-button-\"" ++ b.text ++ "\"",
              status := Status.fail,
              message := "Clicking \"" ++ b.text ++ "\" caused "
                ++ toString ((o b).consoleErrorsAfter.drop
                    (o b).consoleErrorsBefore.length).length ++ " error(s)",
              screenshot := some (o b).screenshotRef,
              details := some (String.intercalate "\n"
                (((o b).consoleErrorsAfter.drop
                    (o b).consoleErrorsBefore.length).map (·.text))) })
    ∧ (¬ (o b).consoleErrorsAfter.length > (o b).consoleErrorsBefore.length →
        (testButton pageUrl b (o b)).status = Status.pass)
    ∧ ((o b).consoleErrorsBefore.length = 2 → (o b).consoleErrorsAfter.length = 5 →
        ((o b).consoleErrorsAfter.drop (o b).consoleErrorsBefore.length).length = 3) := by
  refine ⟨?_, ?_, ?_, ?_⟩
  · have hfil : b ∈ buttons.filter testableButton := List.mem_filter.mpr ⟨hmem, hb⟩
    have hne : (buttons.filter testableButton).length ≠ 0 := by
      intro h
      rw [List.length_eq_zero] at h
      simp [h] at hfil
    simp only [testButtons, hne, if_neg, beq_iff_eq]
    rw [if_neg (by simp [hne])]
    exact List.mem_map.mpr ⟨b, hfil, rfl⟩
  · intro hinc
    have hlen : 0 < ((o b).consoleErrorsAfter.drop (o b).consoleErrorsBefore.length).length := by
      rw [List.length_drop]
      omega
    simp only [testButton, hclick, Bool.not_true, Bool.false_eq_true, if_false, if_neg]
    rw [if_pos hlen]
  · intro hinc
    have hlen : ((o b).consoleErrorsAfter.drop (o b).consoleErrorsBefore.length).length = 0 := by
      rw [List.length_drop]
      omega
    simp [testButton, hclick, hlen]
  · intro h2 h5
    rw [List.length_drop, h2, h5]

/-- Witness for `testButton_error_delta`: a concrete button whose click raises
the console-error count from 2 to 5. -/
theorem testButton_error_delta_witness :
    testButton "http://localhost:3000" sampleButton (sampleClickOracle sampleButton)
        ∈ testButtons sampleClickOracle "http://localhost:3000" [sampleButton]
      ∧ ((sampleClickOracle sampleButton).consoleErrorsAfter.drop
          (sampleClickOracle sampleButton).consoleErrorsBefore.length).length = 3 := by
  have h := testButton_error_delta sampleClickOracle "http://localhost:3000"
    [sampleButton] sampleButton (by decide) (by decide) (by decide)
  exact ⟨h.1, h.2.2.2 (by decide) (by decide)⟩

/-- C8 counterexample: the pathname `/b//` is normalized to `/b/` (only one
trailing slash is removed), and normalizing again gives `/b`, so
normalization is not idempotent. -/
theorem normalizeUrl_not_idempotent_cex :
    normalizeUrl (normalizeUrl "http://a.com/b//") ≠ normalizeUrl "http://a.com/b//" := by
  decide

/-- Function `splitHost` returns a delimiter-free host and the untouched remainder. -/
lemma splitHost_spec (s : List Char) :
    (∀ c ∈ (splitHost s).1, isHostDelim c = false)
    ∧ s = (splitHost s).1 ++ (splitHost s).2
    ∧ ((splitHost s).2 = []
        ∨ ∃ c cs, (splitHost s).2 = c :: cs ∧ isHostDelim c = true) := by
  induction s with
  | nil => simp [splitHost]
  | cons c cs ih =>
    cases hc : isHostDelim c
    · obtain ⟨ih1, ih2, ih3⟩ := ih
      refine ⟨?_, ?_, ?_⟩
      · intro d hd
        rw [splitHost] at hd
        simp [hc] at hd
        rcases hd with hd | hd
        · rwa [hd]
        · exact ih1 d hd
      · rw [splitHost]
        simp [hc]
        exact ih2
      · rw [splitHost]
        simpa [hc] using ih3
    · refine ⟨?_, ?_, ?_⟩ <;> simp [splitHost, hc]

/-- Function `splitHost` recovers a delimiter-free host from `host ++ rest` when
`rest` is empty or starts with a delimiter. -/
lemma splitHost_append (h r : List Char)
    (hh : ∀ c ∈ h, isHostDelim c = false)
    (hr : r = [] ∨ ∃ c cs, r = c :: cs ∧ isHostDelim c = true) :
    splitHost (h ++ r) = (h, r) := by
  induction h with
  | nil =>
    rcases hr with hr | ⟨c, cs, hr, hc⟩
    · simp [hr, splitHost]
    · simp [hr, splitHost, hc]
  | cons a t ih =>
    have ha : isHostDelim a = false := hh a (by simp)
    have ht : ∀ c ∈ t, isHostDelim c = false := fun c hc => hh c (by simp [hc])
    simp [splitHost, ha, ih ht]

/-- Characters surviving `takePath` are neither `?` nor `#`. -/
lemma takePath_no_query (s : List Char) :
    ∀ c ∈ takePath s, (c == '?' || c == '#') = false := by
  induction s with
  | nil => simp [takePath]
  | cons a t ih =>
    intro c hc
    rw [takePath] at hc
    cases ha : (a == '?' || a == '#')
    · simp [ha] at hc
      rcases hc with hc | hc
      · rwa [hc]
      · exact ih c hc
    · simp [ha] at hc

/-- Function `takePath` is the identity on query-free, fragment-free paths. -/
lemma takePath_id (s : List Char)
    (h : ∀ c ∈ s, (c == '?' || c == '#') = false) : takePath s = s := by
  induction s with
  | nil => rfl
  | cons a t ih =>
    have ha : (a == '?' || a == '#') = false := h a (by simp)
    have ht : ∀ c ∈ t, (c == '?' || c == '#') = false := fun c hc => h c (by simp [hc])
    simp [takePath, ha, ih ht]

/-- Whatever the remainder, `pathOf` yields `/` plus query-free text. -/
lemma pathOf_shape (r : List Char) :
    ∃ t, pathOf r = '/' :: t ∧ ∀ c ∈ t, (c == '?' || c == '#') = false := by
  unfold pathOf
  split
  · exact ⟨takePath _, rfl, takePath_no_query _⟩
  · exact ⟨[], rfl, by simp⟩

/-- Shape of a successful `parseTail`: scheme plus non-empty delimiter-free
host, and a `/`-headed query-free pathname. -/
lemma parseTail_shape (scheme rest o p : List Char)
    (h : parseTail scheme rest = some (o, p)) :
    ∃ host, o = scheme ++ host ∧ host ≠ []
      ∧ (∀ c ∈ host, isHostDelim c = false)
      ∧ ∃ t, p = '/' :: t ∧ ∀ c ∈ t, (c == '?' || c == '#') = false := by
  simp only [parseTail] at h
  cases he : (splitHost rest).1.isEmpty
  · rw [he] at h
    simp only [Bool.false_eq_true, if_false, Option.some.injEq, Prod.mk.injEq] at h
    refine ⟨(splitHost rest).1, h.1.symm, ?_, (splitHost_spec rest).1, ?_⟩
    · intro hnil
      rw [hnil] at he
      simp at he
    · obtain ⟨t, ht, htq⟩ := pathOf_shape (splitHost rest).2
      exact ⟨t, h.2 ▸ ht, htq⟩
  · rw [he] at h
    simp at h

/-- Shape of a successful parse. -/
lemma parseUrlChars_shape (s o p : List Char)
    (hp : parseUrlChars s = some (o, p)) :
    ∃ scheme host,
      (scheme = "http://".data ∨ scheme = "https://".data)
      ∧ o = scheme ++ host ∧ host ≠ []
      ∧ (∀ c ∈ host, isHostDelim c = false)
      ∧ ∃ t, p = '/' :: t ∧ ∀ c ∈ t, (c == '?' || c == '#') = false := by
  unfold parseUrlChars at hp
  split at hp
  · obtain ⟨host, h1, h2, h3, h4⟩ := parseTail_shape _ _ _ _ hp
    exact ⟨"http://".data, host, Or.inl rfl, h1, h2, h3, h4⟩
  · split at hp
    · obtain ⟨host, h1, h2, h3, h4⟩ := parseTail_shape _ _ _ _ hp
      exact ⟨"https://".data, host, Or.inr rfl, h1, h2, h3, h4⟩
    · exact absurd hp (by simp)

/-- Lemma: `parseTail` round-trip on a rebuilt `host ++ pathname` input. -/
lemma parseTail_roundtrip (scheme host q : List Char) (hhost : host ≠ [])
    (hhostc : ∀ c ∈ host, isHostDelim c = false)
    (hq : q = [] ∨ ∃ t, q = '/' :: t ∧ ∀ c ∈ t, (c == '?' || c == '#') = false) :
    parseTail scheme (host ++ q) = some (scheme ++ host, if q.isEmpty then ['/'] else q) := by
  have hsplit : splitHost (host ++ q) = (host, q) := by
    refine splitHost_append host q hhostc ?_
    rcases hq with hq | ⟨t, ht, _⟩
    · exact Or.inl hq
    · exact Or.inr ⟨'/', t, ht, rfl⟩
  have hne : host.isEmpty = false := by
    cases host
    · exact absurd rfl hhost
    · rfl
  simp only [parseTail, hsplit, hne, Bool.false_eq_true, if_false]
  rcases hq with hq | ⟨t, ht, htq⟩
  · subst hq
    rfl
  · subst ht
    simp [pathOf, takePath_id t htq]

/-- Full parser round-trip: re-parsing a normalized-shape string recovers the
same origin and (up to the empty-path case) the same pathname. -/
lemma parseUrlChars_roundtrip (scheme host q : List Char)
    (hscheme : scheme = "http://".data ∨ scheme = "https://".data)
    (hhost : host ≠ []) (hhostc : ∀ c ∈ host, isHostDelim c = false)
    (hq : q = [] ∨ ∃ t, q = '/' :: t ∧ ∀ c ∈ t, (c == '?' || c == '#') = false) :
    parseUrlChars (scheme ++ host ++ q)
      = some (scheme ++ host, if q.isEmpty then ['/'] else q) := by
  rcases hscheme with h | h <;> subst h
  · have hpre : "http://".data.isPrefixOf ("http://".data ++ host ++ q) = true := by
      rw [List.append_assoc, List.isPrefixOf_iff_prefix]
      exact List.prefix_append _ _
    have hdrop : ("http://".data ++ host ++ q).drop 7 = host ++ q := by
      have hlen : ("http://".data).length = 7 := rfl
      rw [List.append_assoc, ← hlen]
      exact List.drop_left _ _
    simp only [parseUrlChars, hpre, if_true, hdrop]
    exact parseTail_roundtrip _ host q hhost hhostc hq
  · have hpre1 : "http://".data.isPrefixOf ("https://".data ++ host ++ q) = false := by
      rw [List.append_assoc]
      rfl
    have hpre2 : "https://".data.isPrefixOf ("https://".data ++ host ++ q) = true := by
      rw [List.append_assoc, List.isPrefixOf_iff_prefix]
      exact List.prefix_append _ _
    have hdrop : ("https://".data ++ host ++ q).drop 8 = host ++ q := by
      have hlen : ("https://".data).length = 8 := rfl
      rw [List.append_assoc, ← hlen]
      exact List.drop_left _ _
    simp only [parseUrlChars, hpre1, hpre2, Bool.false_eq_true, if_false, if_true, hdrop]
    exact parseTail_roundtrip _ host q hhost hhostc hq

/-- Stripping one trailing slash from a pathname leaves either the empty
list or another `/`-headed, query-free list. -/
lemma strip_shape (t : List Char)
    (htq : ∀ c ∈ t, (c == '?' || c == '#') = false) :
    stripTrailingSlash ('/' :: t) = []
      ∨ ∃ t', stripTrailingSlash ('/' :: t) = '/' :: t'
          ∧ ∀ c ∈ t', (c == '?' || c == '#') = false := by
  unfold stripTrailingSlash
  split
  · cases t with
    | nil => exact Or.inl rfl
    | cons a t2 =>
      refine Or.inr ⟨(a :: t2).dropLast, rfl, ?_⟩
      intro c hc
      exact htq c (List.dropLast_subset _ hc)
  · exact Or.inr ⟨t, rfl, htq⟩

/-- A list not ending in `/` is unchanged by `stripTrailingSlash`. -/
lemma strip_fixed (q : List Char) (h : q.getLast? ≠ some '/') :
    stripTrailingSlash q = q := by
  unfold stripTrailingSlash
  split
  · exact absurd (by assumption) h
  · rfl

/-- C8 (amended): `normalizeUrl` is idempotent on every string that is
non-parseable or whose pathname does not end in a double slash; the regex
`/\/$/` removes only one trailing slash, so a pathname ending in `//`
normalizes to a value that still ends in `/` and is normalized further by a
second application. -/
theorem normalizeUrl_idem_amended (url : String) (h : normIdemGuard url = true) :
    normalizeUrl (normalizeUrl url) = normalizeUrl url := by
  rcases hp : parseUrlChars url.data with _ | op
  · simp [normalizeUrl, hp]
  · obtain ⟨o, p⟩ := op
    obtain ⟨scheme, host, hscheme, ho, hhost, hhostc, t, hpt, htq⟩ :=
      parseUrlChars_shape url.data o p hp
    have hguard : (stripTrailingSlash p).getLast? ≠ some '/' := by
      unfold normIdemGuard at h
      rw [hp] at h
      simpa using h
    have hq : stripTrailingSlash p = []
        ∨ ∃ t', stripTrailingSlash p = '/' :: t'
            ∧ ∀ c ∈ t', (c == '?' || c == '#') = false := by
      rw [hpt]
      exact strip_shape t htq
    have hnorm1 : normalizeUrl url = String.mk (o ++ stripTrailingSlash p) := by
      simp [normalizeUrl, hp]
    have hparse2 : parseUrlChars (o ++ stripTrailingSlash p)
        = some (o, if (stripTrailingSlash p).isEmpty then ['/']
            else stripTrailingSlash p) := by
      rw [ho]
      exact parseUrlChars_roundtrip scheme host (stripTrailingSlash p)
        hscheme hhost hhostc hq
    rw [hnorm1]
    unfold normalizeUrl
    rw [show (String.mk (o ++ stripTrailingSlash p)).data
        = o ++ stripTrailingSlash p from rfl, hparse2]
    rcases hq with hq0 | ⟨t', hqt, _⟩
    · rw [hq0]
      rfl
    · have hne : (stripTrailingSlash p).isEmpty = false := by
        rw [hqt]
        rfl
      rw [hne]
      simp only [Bool.false_eq_true, if_false]
      rw [strip_fixed _ hguard]

/-- Witness for `normalizeUrl_idem_amended` on a URL whose pathname ends in a
single slash. -/
theorem normalizeUrl_idem_amended_witness :
    normIdemGuard "http://a.com/b/" = true
      ∧ normalizeUrl (normalizeUrl "http://a.com/b/") = normalizeUrl "http://a.com/b/" :=
  ⟨by decide, normalizeUrl_idem_amended "http://a.com/b/" (by decide)⟩

/-- Loop exit on an empty queue. -/
lemma crawlLoop_nil (o : CrawlOracle) (visited : List String)
    (results : List TestResult) (pages : List PageInfo)
    (processed : List (String × Bool)) :
    crawlLoop o visited [] results pages processed = (results, pages, processed) := by
  rw [crawlLoop]

/-- Loop exit at the page cap. -/
lemma crawlLoop_capped (o : CrawlOracle) (visited : List String)
    (url : String) (rest : List String)
    (results : List TestResult) (pages : List PageInfo)
    (processed : List (String × Bool)) (hcap : ¬ visited.length < MAX_PAGES) :
    crawlLoop o visited (url :: rest) results pages processed
      = (results, pages, processed) := by
  rw [crawlLoop, dif_neg hcap]

/-- A queued URL already visited is dropped without any navigation. -/
lemma crawlLoop_cons_visited (o : CrawlOracle) (visited : List String)
    (url : String) (rest : List String)
    (results : List TestResult) (pages : List PageInfo)
    (processed : List (String × Bool))
    (hcap : visited.length < MAX_PAGES)
    (hcont : visited.contains (normalizeUrl url) = true) :
    crawlLoop o visited (url :: rest) results pages processed
      = crawlLoop o visited rest results pages processed := by
  rw [crawlLoop, dif_pos hcap]
  simp only [hcont, eq_self_iff_true, if_true]

/-- An unvisited URL whose navigation succeeds: marked visited first, then
snapshot, outcomes and internal links are accumulated. -/
lemma crawlLoop_cons_loaded (o : CrawlOracle) (visited : List String)
    (url : String) (rest : List String)
    (results : List TestResult) (pages : List PageInfo)
    (processed : List (String × Bool))
    (hcap : visited.length < MAX_PAGES)
    (hcont : visited.contains (normalizeUrl url) = false)
    (hgoto : o.goto url = true) :
    crawlLoop o visited (url :: rest) results pages processed
      = crawlLoop o (visited ++ [normalizeUrl url])
          (rest ++ ((o.pageInfo url).links.filter (fun l => l.isInternal
              && !((visited ++ [normalizeUrl url]).contains (normalizeUrl l.href)))).map
            (·.href))
          (results ++ pageResults url (o.pageInfo url) (o.pageText url))
          (pages ++ [o.pageInfo url])
          (processed ++ [(normalizeUrl url, true)]) := by
  rw [crawlLoop, dif_pos hcap]
  simp only [hcont, Bool.false_eq_true, if_false, hgoto, eq_self_iff_true, if_true]

/-- An unvisited URL whose navigation fails: marked visited first, a
`page-load` fail outcome recorded, no snapshot, no links queued. -/
lemma crawlLoop_cons_failed (o : CrawlOracle) (visited : List String)
    (url : String) (rest : List String)
    (results : List TestResult) (pages : List PageInfo)
    (processed : List (String × Bool))
    (hcap : visited.length < MAX_PAGES)
    (hcont : visited.contains (normalizeUrl url) = false)
    (hgoto : o.goto url = false) :
    crawlLoop o visited (url :: rest) results pages processed
      = crawlLoop o (visited ++ [normalizeUrl url]) rest
          (results ++ [pageLoadFailResult url]) pages
          (processed ++ [(normalizeUrl url, false)]) := by
  rw [crawlLoop, dif_pos hcap]
  simp only [hcont, Bool.false_eq_true, if_false, hgoto]

/-- Crawl-loop invariant: the visited set mirrors the processed trace, stays
duplicate-free and capped, and the snapshot count equals the number of
successful navigations. -/
lemma crawlLoop_inv (o : CrawlOracle) (visited toVisit : List String)
    (results : List TestResult) (pages : List PageInfo)
    (processed : List (String × Bool)) :
    visited = processed.map Prod.fst → visited.Nodup →
    visited.length ≤ MAX_PAGES →
    pages.length = (processed.filter (fun pr => pr.2)).length →
    ((crawlLoop o visited toVisit results pages processed).2.2.map Prod.fst).Nodup
    ∧ (crawlLoop o visited toVisit results pages processed).2.2.length ≤ MAX_PAGES
    ∧ (crawlLoop o visited toVisit results pages processed).2.1.length
        = ((crawlLoop o visited toVisit results pages processed).2.2.filter
            (fun pr => pr.2)).length := by
  induction visited, toVisit, results, pages, processed using crawlLoop.induct o with
  | case1 visited results pages processed =>
    intro hvp hnd hlen hpg
    rw [crawlLoop_nil]
    subst hvp
    exact ⟨hnd, by simpa using hlen, hpg⟩
  | case2 visited results pages processed url rest hcap normalizedUrl hcont ih =>
    intro hvp hnd hlen hpg
    rw [crawlLoop_cons_visited o visited url rest results pages processed hcap hcont]
    exact ih hvp hnd hlen hpg
  | case3 visited results pages processed url rest hcap normalizedUrl hcont visited'
      hgoto info bodyText newLinks ih =>
    intro hvp hnd hlen hpg
    have hmem : normalizedUrl ∉ visited := by simpa using hcont
    have hcont' : visited.contains normalizedUrl = false := by
      simpa using hmem
    rw [crawlLoop_cons_loaded o visited url rest results pages processed hcap hcont' hgoto]
    refine ih ?_ ?_ ?_ ?_
    · show visited ++ [normalizedUrl] = (processed ++ [(normalizedUrl, true)]).map Prod.fst
      simp [hvp]
    · show (visited ++ [normalizedUrl]).Nodup
      simp [List.nodup_append, hnd, hmem]
    · show (visited ++ [normalizedUrl]).length ≤ MAX_PAGES
      simp only [List.length_append, List.length_cons, List.length_nil]
      omega
    · show (pages ++ [info]).length
        = ((processed ++ [(normalizedUrl, true)]).filter (fun pr => pr.2)).length
      simp [List.filter_append, hpg]
  | case4 visited results pages processed url rest hcap normalizedUrl hcont visited'
      hgoto ih =>
    intro hvp hnd hlen hpg
    have hmem : normalizedUrl ∉ visited := by simpa using hcont
    have hcont' : visited.contains normalizedUrl = false := by
      simpa using hmem
    have hgoto' : o.goto url = false := by simpa using hgoto
    rw [crawlLoop_cons_failed o visited url rest results pages processed hcap hcont' hgoto']
    refine ih ?_ ?_ ?_ ?_
    · show visited ++ [normalizedUrl] = (processed ++ [(normalizedUrl, false)]).map Prod.fst
      simp [hvp]
    · show (visited ++ [normalizedUrl]).Nodup
      simp [List.nodup_append, hnd, hmem]
    · show (visited ++ [normalizedUrl]).length ≤ MAX_PAGES
      simp only [List.length_append, List.length_cons, List.length_nil]
      omega
    · show pages.length
        = ((processed ++ [(normalizedUrl, false)]).filter (fun pr => pr.2)).length
      simp [List.filter_append, hpg]
  | case5 visited results pages processed url rest hcap =>
    intro hvp hnd hlen hpg
    rw [crawlLoop_capped o visited url rest results pages processed hcap]
    subst hvp
    exact ⟨hnd, by simpa using hlen, hpg⟩

/-- C2: in any run of `discoverAndTestPages` (any oracle, any base URL), the
normalized URLs navigated to are pairwise distinct and number at most
`MAX_PAGES`. -/
theorem crawl_visits_bounded (o : CrawlOracle) (baseUrl : String) :
    ((discoverAndTestPages o baseUrl).2.2.map Prod.fst).Nodup
    ∧ (discoverAndTestPages o baseUrl).2.2.length ≤ MAX_PAGES := by
  obtain ⟨h1, h2, _⟩ :=
    crawlLoop_inv o [] [baseUrl] [] [] [] rfl List.nodup_nil (by simp [MAX_PAGES]) rfl
  exact ⟨h1, h2⟩

/-- C9: a URL is marked visited before navigation, so a failed navigation
still consumes a processed slot, contributes no `PageInfo` snapshot (the
snapshot count equals the count of successful navigations) and is never
navigated again; in particular, a base URL that fails to load yields exactly
a `page-load` fail outcome, zero snapshots, and one failed processed entry. -/
theorem crawl_failed_nav (o : CrawlOracle) (baseUrl : String) :
    ((discoverAndTestPages o baseUrl).2.1.length
        = ((discoverAndTestPages o baseUrl).2.2.filter (fun pr => pr.2)).length)
    ∧ (o.goto baseUrl = false →
        discoverAndTestPages o baseUrl
          = ([pageLoadFailResult baseUrl], [],
             [(normalizeUrl baseUrl, false)])) := by
  constructor
  · obtain ⟨_, _, h3⟩ :=
      crawlLoop_inv o [] [baseUrl] [] [] [] rfl List.nodup_nil (by simp [MAX_PAGES]) rfl
    exact h3
  · intro hfail
    unfold discoverAndTestPages
    rw [crawlLoop_cons_failed o [] baseUrl [] [] [] [] (by simp [MAX_PAGES]) rfl hfail,
      crawlLoop_nil]
    rfl

/-- Witness for `crawl_failed_nav`: under `failOracle` the run on a concrete
base URL produces one `page-load` failure, no snapshots, and one consumed
slot. -/
theorem crawl_failed_nav_witness :
    discoverAndTestPages failOracle "http://a.com"
      = ([pageLoadFailResult "http://a.com"], [],
         [(normalizeUrl "http://a.com", false)]) :=
  (crawl_failed_nav failOracle "http://a.com").2 rfl

/-- C4 counterexample: with 7 mutually overlapping buttons the first outer
iteration reports 6 pairs before the break condition is checked, so the
returned list has 6 entries — more than 5. -/
theorem checkOverlaps_exceeds_cap_cex :
    (checkOverlaps sevenButtons).length = 6
    ∧ ¬ (checkOverlaps sevenButtons).length ≤ 5 := by
  decide

/-- A zero-area first element produces no overlap entry. -/
lemma overlapPair_zero_left (e1 e2 : DomElem) (h : elemNonZero e1 = false) :
    overlapPair e1 e2 = none := by
  unfold elemNonZero at h
  unfold overlapPair
  simp only [Bool.and_eq_false_iff, Bool.not_eq_false', beq_iff_eq] at h
  rcases h with h | h
  · rw [if_pos (Or.inl h)]
  · rw [if_pos (Or.inr (Or.inl h))]

/-- A zero-area second element produces no overlap entry. -/
lemma overlapPair_zero_right (e1 e2 : DomElem) (h : elemNonZero e2 = false) :
    overlapPair e1 e2 = none := by
  unfold elemNonZero at h
  unfold overlapPair
  simp only [Bool.and_eq_false_iff, Bool.not_eq_false', beq_iff_eq] at h
  rcases h with h | h
  · rw [if_pos (Or.inr (Or.inr (Or.inl h)))]
  · rw [if_pos (Or.inr (Or.inr (Or.inr h)))]

/-- Zero-area partners contribute nothing to the inner loop. -/
lemma overlapScanFrom_filter (e : DomElem) (rest : List DomElem) :
    overlapScanFrom e rest = overlapScanFrom e (rest.filter elemNonZero) := by
  unfold overlapScanFrom
  induction rest with
  | nil => rfl
  | cons a t ih =>
    cases ha : elemNonZero a
    · rw [List.filterMap_cons, overlapPair_zero_right e a ha, List.filter_cons,
        if_neg (by simp [ha])]
      exact ih
    · rw [List.filterMap_cons, List.filter_cons, if_pos (by simp [ha]),
        List.filterMap_cons]
      cases overlapPair e a <;> simp [ih]

/-- A zero-area outer element contributes nothing to the inner loop. -/
lemma overlapScanFrom_zero (e : DomElem) (rest : List DomElem)
    (h : elemNonZero e = false) : overlapScanFrom e rest = [] := by
  unfold overlapScanFrom
  induction rest with
  | nil => rfl
  | cons a t ih => rw [List.filterMap_cons, overlapPair_zero_left e a h, ih]

/-- Discarding zero-area elements up front does not change the scan, as long
as the accumulator has not yet passed the break threshold. -/
lemma overlapScan_filter (els : List DomElem) (acc : List String)
    (hacc : acc.length ≤ 5) :
    overlapScan els acc = overlapScan (els.filter elemNonZero) acc := by
  induction els generalizing acc with
  | nil => rfl
  | cons e t ih =>
    cases he : elemNonZero e
    · rw [overlapScan, overlapScanFrom_zero e t he, List.append_nil,
        if_neg (by omega), List.filter_cons, if_neg (by simp [he])]
      exact ih acc hacc
    · have hfil : List.filter elemNonZero (e :: t) = e :: List.filter elemNonZero t := by
        rw [List.filter_cons, if_pos (by simp [he])]
      rw [hfil, overlapScan, overlapScan, ← overlapScanFrom_filter e t]
      by_cases hlen : (acc ++ overlapScanFrom e t).length > 5
      · rw [if_pos hlen, if_pos hlen]
      · rw [if_neg hlen, if_neg hlen]
        exact ih _ (by omega)

/-- The reported list exceeds the threshold by at most one inner loop's worth
of entries: its length is bounded by `5 + n`. -/
lemma overlapScan_length (els : List DomElem) (acc : List String)
    (hacc : acc.length ≤ 5) :
    (overlapScan els acc).length ≤ 5 + els.length := by
  induction els generalizing acc with
  | nil =>
    rw [overlapScan]
    simpa using hacc
  | cons e t ih =>
    rw [overlapScan]
    have hfrom : (overlapScanFrom e t).length ≤ t.length :=
      List.length_filterMap_le _ _
    by_cases hlen : (acc ++ overlapScanFrom e t).length > 5
    · rw [if_pos hlen]
      simp only [List.length_append, List.length_cons] at *
      omega
    · rw [if_neg hlen]
      have := ih (acc ++ overlapScanFrom e t) (by omega)
      simp only [List.length_cons]
      omega

/-- C4 (amended): the overlap check considers only pairs in which both boxes
have non-zero area (dropping zero-area elements up front changes nothing, so
all-zero-area pages report nothing), but the break condition runs only after
each full inner loop, so the returned list can exceed 5 entries; it is
bounded by `5 + n` instead. -/
theorem checkOverlaps_amended (els : List DomElem) :
    checkOverlaps els = checkOverlaps (els.filter elemNonZero)
    ∧ (checkOverlaps els).length ≤ 5 + els.length
    ∧ checkOverlaps zeroAreaLinks = [] := by
  exact ⟨overlapScan_filter els [] (by simp),
    overlapScan_length els [] (by simp), by decide⟩

end AutoTest
